import Mathlib

/-!
# Cheshire platform bring-up (platform/fpga/cheshire/platform.c)

A shallow embedding of the Cheshire OpenSBI platform file.  The platform
functions are sequential C code whose only effects are calls into external
drivers (PLIC, CLIC, ACLINT MSWI / MTIMER, UART).  The drivers are taken as a
parameter `Env σ` over an arbitrary hardware state `σ`: every `int`-returning
primitive maps a state to a return code and a new state, every primitive whose
result the platform code ignores maps a state to a new state.

C `int` return codes are `Int`; `if (ret)` is `ret ≠ 0`.  `u32` values are
`Nat` reduced modulo `2 ^ 32` where the C arithmetic is unsigned.
-/

namespace Cheshire

/-! ## Board constants (platform.c, lines 23-37) -/

def CHESHIRE_UART_ADDR : Nat := 0x03002000
def CHESHIRE_UART_FREQ : Nat := 50000000
def CHESHIRE_UART_BAUDRATE : Nat := 115200
def CHESHIRE_UART_REG_SHIFT : Nat := 2
def CHESHIRE_UART_REG_WIDTH : Nat := 4
def CHESHIRE_PLIC_ADDR : Nat := 0x0c000000
def CHESHIRE_PLIC_NUM_SOURCES : Nat := 20
def CHESHIRE_CLIC_ADDR : Nat := 0x08000000
def CHESHIRE_CLIC_NUM_SOURCES : Nat := 64
def CHESHIRE_HART_COUNT : Nat := 1
def CHESHIRE_CLINT_ADDR : Nat := 0x02040000
def CHESHIRE_ACLINT_MTIMER_FREQ : Nat := 1000000
def CHESHIRE_ACLINT_MSWI_ADDR : Nat := CHESHIRE_CLINT_ADDR + 0x0
def CHESHIRE_ACLINT_MTIMER_ADDR : Nat := CHESHIRE_CLINT_ADDR + 0xbff8
def CHESHIRE_ACLINT_MTIMECMP_ADDR : Nat := CHESHIRE_CLINT_ADDR + 0x4000

/-! ## Controller descriptors (platform.c, lines 39-71) -/

structure platform_uart_data where
  addr : Nat
  freq : Nat
  baud : Nat
deriving DecidableEq, Repr

structure clic_data where
  addr : Nat
  num_src : Nat
deriving DecidableEq, Repr

structure plic_data where
  addr : Nat
  num_src : Nat
deriving DecidableEq, Repr

structure aclint_mswi_data where
  addr : Nat
  size : Nat
  first_hartid : Nat
  hart_count : Nat
deriving DecidableEq, Repr

structure aclint_mtimer_data where
  mtime_freq : Nat
  mtime_addr : Nat
  mtime_size : Nat
  mtimecmp_addr : Nat
  mtimecmp_size : Nat
  first_hartid : Nat
  hart_count : Nat
  has_64bit_mmio : Bool
deriving DecidableEq, Repr

def uart : platform_uart_data :=
  { addr := CHESHIRE_UART_ADDR, freq := CHESHIRE_UART_FREQ, baud := CHESHIRE_UART_BAUDRATE }

def clic : clic_data :=
  { addr := CHESHIRE_CLIC_ADDR, num_src := CHESHIRE_CLIC_NUM_SOURCES }

def plic : plic_data :=
  { addr := CHESHIRE_PLIC_ADDR, num_src := CHESHIRE_PLIC_NUM_SOURCES }

/-- The MSWI descriptor.  `ACLINT_MSWI_SIZE` comes from
`sbi_utils/ipi/aclint_mswi.h`, which is not part of this file; it is a
parameter here. -/
def mswi (ACLINT_MSWI_SIZE : Nat) : aclint_mswi_data :=
  { addr := CHESHIRE_ACLINT_MSWI_ADDR
    size := ACLINT_MSWI_SIZE
    first_hartid := 0
    hart_count := CHESHIRE_HART_COUNT }

def mtimer : aclint_mtimer_data :=
  { mtime_freq := CHESHIRE_ACLINT_MTIMER_FREQ
    mtime_addr := CHESHIRE_ACLINT_MTIMER_ADDR
    mtime_size := 8
    mtimecmp_addr := CHESHIRE_ACLINT_MTIMECMP_ADDR
    mtimecmp_size := 16
    first_hartid := 0
    hart_count := CHESHIRE_HART_COUNT
    has_64bit_mmio := false }

/-- The fields of `struct sbi_platform` that platform.c initialises from
values of its own (lines 179-187).  The version, feature and stack-size
fields are initialised from header macros that are not part of this file. -/
structure sbi_platform where
  name : String
  hart_count : Nat
deriving DecidableEq, Repr

def platform : sbi_platform :=
  { name := "CHESHIRE RISC-V", hart_count := CHESHIRE_HART_COUNT }

/-! ## The external drivers -/

/-- The driver primitives and header macros platform.c uses but does not
define.  `σ` is the hardware state the drivers act on. -/
structure Env (σ : Type) where
  IRQ_M_SOFT : Nat
  ACLINT_MSWI_SIZE : Nat
  uart8250_init : Nat → Nat → Nat → Nat → Nat → Nat → σ → Int × σ
  plic_cold_irqchip_init : plic_data → σ → Int × σ
  plic_warm_irqchip_init : plic_data → Int → Int → σ → Int × σ
  clic_init : clic_data → σ → Int × σ
  clic_set_enable : Nat → Nat → σ → σ
  clic_set_priority : Nat → Nat → σ → σ
  clic_delegate : clic_data → Nat → σ → σ
  aclint_mswi_cold_init : aclint_mswi_data → σ → Int × σ
  aclint_mswi_warm_init : σ → Int × σ
  aclint_mtimer_cold_init : aclint_mtimer_data → Option aclint_mtimer_data → σ → Int × σ
  aclint_mtimer_warm_init : σ → Int × σ

/-- One driver call, with the arguments platform.c passes.  A pointer to a
descriptor is recorded as the descriptor. -/
inductive Call where
  | uart8250_init (addr freq baud reg_shift reg_width reg_offset : Nat)
  | plic_cold_irqchip_init (p : plic_data)
  | plic_warm_irqchip_init (p : plic_data) (m_cntx_id s_cntx_id : Int)
  | clic_init (c : clic_data)
  | clic_set_enable (irq en : Nat)
  | clic_set_priority (irq prio : Nat)
  | clic_delegate (c : clic_data) (irq : Nat)
  | aclint_mswi_cold_init (m : aclint_mswi_data)
  | aclint_mswi_warm_init
  | aclint_mtimer_cold_init (mt : aclint_mtimer_data) (reference : Option aclint_mtimer_data)
  | aclint_mtimer_warm_init
deriving DecidableEq, Repr

/-- Run an `int`-returning primitive and append the call to the trace. -/
def logRet {σ : Type} (c : Call) (f : σ → Int × σ) (st : σ × List Call) :
    Int × (σ × List Call) :=
  ((f st.1).1, ((f st.1).2, st.2 ++ [c]))

/-- Run a primitive whose result is ignored and append the call to the trace. -/
def logVoid {σ : Type} (c : Call) (f : σ → σ) (st : σ × List Call) : σ × List Call :=
  (f st.1, st.2 ++ [c])

/-- The drivers of `E`, instrumented: the state carries the list of driver
calls made so far, oldest first. -/
def traced {σ : Type} (E : Env σ) : Env (σ × List Call) :=
  { IRQ_M_SOFT := E.IRQ_M_SOFT
    ACLINT_MSWI_SIZE := E.ACLINT_MSWI_SIZE
    uart8250_init := fun a f b sh w o =>
      logRet (Call.uart8250_init a f b sh w o) (E.uart8250_init a f b sh w o)
    plic_cold_irqchip_init := fun p =>
      logRet (Call.plic_cold_irqchip_init p) (E.plic_cold_irqchip_init p)
    plic_warm_irqchip_init := fun p m sc =>
      logRet (Call.plic_warm_irqchip_init p m sc) (E.plic_warm_irqchip_init p m sc)
    clic_init := fun c => logRet (Call.clic_init c) (E.clic_init c)
    clic_set_enable := fun i en => logVoid (Call.clic_set_enable i en) (E.clic_set_enable i en)
    clic_set_priority := fun i pr =>
      logVoid (Call.clic_set_priority i pr) (E.clic_set_priority i pr)
    clic_delegate := fun c i => logVoid (Call.clic_delegate c i) (E.clic_delegate c i)
    aclint_mswi_cold_init := fun m =>
      logRet (Call.aclint_mswi_cold_init m) (E.aclint_mswi_cold_init m)
    aclint_mswi_warm_init := logRet Call.aclint_mswi_warm_init E.aclint_mswi_warm_init
    aclint_mtimer_cold_init := fun mt r =>
      logRet (Call.aclint_mtimer_cold_init mt r) (E.aclint_mtimer_cold_init mt r)
    aclint_mtimer_warm_init := logRet Call.aclint_mtimer_warm_init E.aclint_mtimer_warm_init }

/-! ## Machine integers -/

/-- Conversion of a `u32` value to C `int` (two's complement, 32 bits). -/
def u32_to_int (x : Nat) : Int :=
  if x % 2 ^ 32 < 2 ^ 31 then ((x % 2 ^ 32 : Nat) : Int) else ((x % 2 ^ 32 : Nat) : Int) - 2 ^ 32

/-- The first argument of line 123, `2 * hartid` in `u32`, received as `int`. -/
def m_cntx_id (hartid : Nat) : Int :=
  u32_to_int (2 * hartid % 2 ^ 32)

/-- The second argument of line 123, `2 * hartid + 1` in `u32`, received as `int`. -/
def s_cntx_id (hartid : Nat) : Int :=
  u32_to_int ((2 * hartid % 2 ^ 32 + 1) % 2 ^ 32)

/-! ## The platform operations (platform.c, lines 76-164) -/

def cheshire_early_init {σ : Type} (_E : Env σ) (_cold_boot : Bool) (s : σ) : Int × σ :=
  (0, s)

def cheshire_final_init {σ : Type} (_E : Env σ) (_cold_boot : Bool) (s : σ) : Int × σ :=
  (0, s)

def cheshire_console_init {σ : Type} (E : Env σ) (s : σ) : Int × σ :=
  E.uart8250_init uart.addr uart.freq uart.baud CHESHIRE_UART_REG_SHIFT
    CHESHIRE_UART_REG_WIDTH 0 s

def plic_cheshire_warm_irqchip_init {σ : Type} (E : Env σ) (m_cntx : Int) (s_cntx : Int)
    (s : σ) : Int × σ :=
  E.plic_warm_irqchip_init plic m_cntx s_cntx s

/-- Lines 120-123 of `cheshire_irqchip_init`: the part after the cold block. -/
def cheshire_irqchip_init_hart {σ : Type} (E : Env σ) (hartid : Nat) (s : σ) : Int × σ :=
  let r := E.clic_init clic s
  if r.1 ≠ 0 then r
  else plic_cheshire_warm_irqchip_init E (m_cntx_id hartid) (s_cntx_id hartid) r.2

/-- The function `cheshire_irqchip_init`; `hartid` is the value `current_hartid()`
returns on the calling hart. -/
def cheshire_irqchip_init {σ : Type} (E : Env σ) (hartid : Nat) (cold_boot : Bool)
    (s : σ) : Int × σ :=
  if cold_boot then
    let r := E.plic_cold_irqchip_init plic s
    if r.1 ≠ 0 then r
    else cheshire_irqchip_init_hart E hartid r.2
  else cheshire_irqchip_init_hart E hartid s

def cheshire_ipi_init {σ : Type} (E : Env σ) (cold_boot : Bool) (s : σ) : Int × σ :=
  if cold_boot then
    let r := E.aclint_mswi_cold_init (mswi E.ACLINT_MSWI_SIZE) s
    if r.1 ≠ 0 then r
    else
      let s1 := E.clic_set_enable E.IRQ_M_SOFT 1 r.2
      let s2 := E.clic_set_priority E.IRQ_M_SOFT 255 s1
      E.aclint_mswi_warm_init s2
  else E.aclint_mswi_warm_init s

def cheshire_timer_init {σ : Type} (E : Env σ) (cold_boot : Bool) (s : σ) : Int × σ :=
  if cold_boot then
    let r := E.aclint_mtimer_cold_init mtimer none s
    if r.1 ≠ 0 then r
    else E.aclint_mtimer_warm_init r.2
  else E.aclint_mtimer_warm_init s

def cheshire_clic_delegate {σ : Type} (E : Env σ) (irq : Nat) (s : σ) : Int × σ :=
  let s1 := E.clic_delegate clic irq s
  (0, s1)

/-! ## Concrete drivers -/

/-- A choice of return code for each `int`-returning driver primitive of the
interrupt, IPI and timer bring-up. -/
structure ReturnCodes where
  plic_cold : Int
  plic_warm : Int
  clic_init : Int
  mswi_cold : Int
  mswi_warm : Int
  mtimer_cold : Int
  mtimer_warm : Int
deriving DecidableEq, Repr

/-- Concrete drivers on a trivial state: each primitive returns the code chosen
in `rc` and has no other effect; the UART init returns 0. -/
def stubEnv (rc : ReturnCodes) : Env Unit :=
  { IRQ_M_SOFT := 3
    ACLINT_MSWI_SIZE := 0x4000
    uart8250_init := fun _ _ _ _ _ _ s => (0, s)
    plic_cold_irqchip_init := fun _ s => (rc.plic_cold, s)
    plic_warm_irqchip_init := fun _ _ _ s => (rc.plic_warm, s)
    clic_init := fun _ s => (rc.clic_init, s)
    clic_set_enable := fun _ _ s => s
    clic_set_priority := fun _ _ s => s
    clic_delegate := fun _ _ s => s
    aclint_mswi_cold_init := fun _ s => (rc.mswi_cold, s)
    aclint_mswi_warm_init := fun s => (rc.mswi_warm, s)
    aclint_mtimer_cold_init := fun _ _ s => (rc.mtimer_cold, s)
    aclint_mtimer_warm_init := fun s => (rc.mtimer_warm, s) }

/-- All return codes 0. -/
def allOk : ReturnCodes :=
  { plic_cold := 0, plic_warm := 0, clic_init := 0, mswi_cold := 0, mswi_warm := 0,
    mtimer_cold := 0, mtimer_warm := 0 }

/-! ## Register-write model of the drivers -/

/-- A register file: the value held at each address. -/
abbrev Regs := Nat → Nat

/-- One register write. -/
def reg_write (a v : Nat) (m : Regs) : Regs :=
  fun x => if x = a then v else m x

/-- A sequence of register writes `(address, value)`, performed in order. -/
def apply_writes (ws : List (Nat × Nat)) (m : Regs) : Regs :=
  ws.foldl (fun acc w => reg_write w.1 w.2 acc) m

/-- For each driver primitive of the interrupt-controller bring-up, the list
of register writes it performs and the code it returns, as functions of the
primitive's arguments only. -/
structure WriteTable where
  plic_cold_writes : plic_data → List (Nat × Nat)
  plic_cold_ret : plic_data → Int
  plic_warm_writes : plic_data → Int → Int → List (Nat × Nat)
  plic_warm_ret : plic_data → Int → Int → Int
  clic_init_writes : clic_data → List (Nat × Nat)
  clic_init_ret : clic_data → Int

/-- Modelled from the spec: the PLIC and CLIC driver primitives
(`plic_cold_irqchip_init`, `plic_warm_irqchip_init`, `clic_init`), whose code is
not in platform.c.  The spec treats them as black boxes that complete as
register writes and re-write the registers with identical values when called
again: each primitive performs a list of register writes and returns a code,
both determined by its arguments alone.  The remaining primitives are not used
by `cheshire_irqchip_init` and leave the registers alone. -/
def regEnv (W : WriteTable) : Env Regs :=
  { IRQ_M_SOFT := 3
    ACLINT_MSWI_SIZE := 0x4000
    uart8250_init := fun _ _ _ _ _ _ s => (0, s)
    plic_cold_irqchip_init := fun p s => (W.plic_cold_ret p, apply_writes (W.plic_cold_writes p) s)
    plic_warm_irqchip_init := fun p m sc s =>
      (W.plic_warm_ret p m sc, apply_writes (W.plic_warm_writes p m sc) s)
    clic_init := fun c s => (W.clic_init_ret c, apply_writes (W.clic_init_writes c) s)
    clic_set_enable := fun _ _ s => s
    clic_set_priority := fun _ _ s => s
    clic_delegate := fun _ _ s => s
    aclint_mswi_cold_init := fun _ s => (0, s)
    aclint_mswi_warm_init := fun s => (0, s)
    aclint_mtimer_cold_init := fun _ _ s => (0, s)
    aclint_mtimer_warm_init := fun s => (0, s) }

/-- A concrete write table: CLIC init writes 1 at the CLIC base, the PLIC warm
init writes 7 at the enable offset of each of the two contexts, all succeed. -/
def sampleTable : WriteTable :=
  { plic_cold_writes := fun p => [(p.addr, 0)]
    plic_cold_ret := fun _ => 0
    plic_warm_writes := fun p m sc =>
      [(p.addr + 0x2000 + 0x80 * m.toNat, 7), (p.addr + 0x2000 + 0x80 * sc.toNat, 7)]
    plic_warm_ret := fun _ _ _ => 0
    clic_init_writes := fun c => [(c.addr, 1)]
    clic_init_ret := fun _ => 0 }

/-! ## Delegation model -/

/-- Where an interrupt line terminates. -/
inductive TerminationLayer where
  | compact_controller_local
  | distributor_routed
deriving DecidableEq, Repr

/-- The platform-wide delegation state: the termination layer of every line. -/
abbrev DelegationState := Nat → TerminationLayer

/-- Modelled from the spec: the driver primitive `clic_delegate`, whose code is
not in platform.c.  Its effect per the spec: it marks `irq_number` as
distributor-routed rather than compact-controller-local; the other lines keep
their layer. -/
def clic_delegate_model (_c : clic_data) (irq : Nat) (d : DelegationState) : DelegationState :=
  fun line => if line = irq then TerminationLayer.distributor_routed else d line

/-- The drivers `E` with `clic_delegate` replaced by the delegation model. -/
def withDelegation (E : Env DelegationState) : Env DelegationState :=
  { E with clic_delegate := clic_delegate_model }

/-- The external driver query of a line's termination layer. -/
def query_layer (d : DelegationState) (irq : Nat) : TerminationLayer :=
  d irq

/-- A finite sequence of `cheshire_clic_delegate` calls, one per element of
`irqs`, in order; the result is the state after the last call. -/
def delegate_all (E : Env DelegationState) (irqs : List Nat) (d : DelegationState) :
    DelegationState :=
  irqs.foldl (fun acc i => (cheshire_clic_delegate E i acc).2) d

/-- Every line compact-controller-local: the delegation state at bring-up. -/
def all_local : DelegationState :=
  fun _ => TerminationLayer.compact_controller_local

/-- Concrete drivers on the delegation state that leave it alone and return 0. -/
def idleEnv : Env DelegationState :=
  { IRQ_M_SOFT := 3
    ACLINT_MSWI_SIZE := 0x4000
    uart8250_init := fun _ _ _ _ _ _ s => (0, s)
    plic_cold_irqchip_init := fun _ s => (0, s)
    plic_warm_irqchip_init := fun _ _ _ s => (0, s)
    clic_init := fun _ s => (0, s)
    clic_set_enable := fun _ _ s => s
    clic_set_priority := fun _ _ s => s
    clic_delegate := fun _ _ s => s
    aclint_mswi_cold_init := fun _ s => (0, s)
    aclint_mswi_warm_init := fun s => (0, s)
    aclint_mtimer_cold_init := fun _ _ s => (0, s)
    aclint_mtimer_warm_init := fun s => (0, s) }

/-! ## Shared lemmas -/

theorem traced_irqchip_init_hart {σ : Type} (E : Env σ) (hartid : Nat) (s : σ)
    (t : List Call) :
    cheshire_irqchip_init_hart (traced E) hartid (s, t) =
      if (E.clic_init clic s).1 ≠ 0 then
        ((E.clic_init clic s).1, ((E.clic_init clic s).2, t ++ [Call.clic_init clic]))
      else
        ((E.plic_warm_irqchip_init plic (m_cntx_id hartid) (s_cntx_id hartid)
            (E.clic_init clic s).2).1,
          ((E.plic_warm_irqchip_init plic (m_cntx_id hartid) (s_cntx_id hartid)
              (E.clic_init clic s).2).2,
            t ++ [Call.clic_init clic,
              Call.plic_warm_irqchip_init plic (m_cntx_id hartid) (s_cntx_id hartid)])) := by
  simp only [cheshire_irqchip_init_hart, plic_cheshire_warm_irqchip_init, traced, logRet]
  split <;> simp

theorem traced_irqchip_init {σ : Type} (E : Env σ) (hartid : Nat) (s : σ) (t : List Call) :
    cheshire_irqchip_init (traced E) hartid true (s, t) =
      if (E.plic_cold_irqchip_init plic s).1 ≠ 0 then
        ((E.plic_cold_irqchip_init plic s).1,
          ((E.plic_cold_irqchip_init plic s).2, t ++ [Call.plic_cold_irqchip_init plic]))
      else
        cheshire_irqchip_init_hart (traced E) hartid
          ((E.plic_cold_irqchip_init plic s).2, t ++ [Call.plic_cold_irqchip_init plic]) := by
  simp only [cheshire_irqchip_init, traced, logRet]
  simp

/-! ## Theorems -/

/-- C9: `cheshire_early_init` and `cheshire_final_init` return 0 for both values
of `cold_boot` and every state, leave the state unchanged and issue no driver
call (the trace of the instrumented drivers is unchanged); the result does not
depend on `cold_boot`. -/
theorem early_final_init_no_effect {σ : Type} (E : Env σ) (cold_boot : Bool) (s : σ)
    (t : List Call) :
    cheshire_early_init E cold_boot s = (0, s) ∧
    cheshire_final_init E cold_boot s = (0, s) ∧
    cheshire_early_init (traced E) cold_boot (s, t) = (0, (s, t)) ∧
    cheshire_final_init (traced E) cold_boot (s, t) = (0, (s, t)) ∧
    cheshire_early_init E true s = cheshire_early_init E false s ∧
    cheshire_final_init E true s = cheshire_final_init E false s :=
  ⟨rfl, rfl, rfl, rfl, rfl, rfl⟩

/-- C10: the hart ranges of the `mswi` and `mtimer` descriptors both equal
`[0, platform.hart_count)`, the compare-register region holds 8 bytes per hart
and it does not overlap the counter register region. -/
theorem descriptors_cover_topology (ACLINT_MSWI_SIZE : Nat) :
    (∀ h : Nat, ((mswi ACLINT_MSWI_SIZE).first_hartid ≤ h ∧
        h < (mswi ACLINT_MSWI_SIZE).first_hartid + (mswi ACLINT_MSWI_SIZE).hart_count) ↔
      h < platform.hart_count) ∧
    (∀ h : Nat, (mtimer.first_hartid ≤ h ∧ h < mtimer.first_hartid + mtimer.hart_count) ↔
      h < platform.hart_count) ∧
    8 * platform.hart_count ≤ mtimer.mtimecmp_size ∧
    (mtimer.mtimecmp_addr + mtimer.mtimecmp_size ≤ mtimer.mtime_addr ∨
      mtimer.mtime_addr + mtimer.mtime_size ≤ mtimer.mtimecmp_addr) := by
  refine ⟨?_, ?_, ?_, ?_⟩
  · intro h
    simp [mswi, platform]
  · intro h
    simp [mtimer, platform]
  · decide
  · left
    decide

/-- C1 (as stated, refuted): at `irq = 64`, the first interrupt number outside
the compact controller's source range, `cheshire_clic_delegate` does not fail
and does not stay silent: it returns 0, it issues the driver call
`clic_delegate(&clic, 64)`, and under the delegation model line 64 changes from
compact-controller-local to distributor-routed. -/
theorem clic_delegate_out_of_range_counterexample :
    clic.num_src ≤ 64 ∧
    (cheshire_clic_delegate (traced (withDelegation idleEnv)) 64 (all_local, [])).1 = 0 ∧
    (cheshire_clic_delegate (traced (withDelegation idleEnv)) 64 (all_local, [])).2.2 =
      [Call.clic_delegate clic 64] ∧
    query_layer all_local 64 = TerminationLayer.compact_controller_local ∧
    query_layer (cheshire_clic_delegate (traced (withDelegation idleEnv)) 64
      (all_local, [])).2.1 64 = TerminationLayer.distributor_routed ∧
    ¬ ((cheshire_clic_delegate (traced (withDelegation idleEnv)) 64 (all_local, [])).1 ≠ 0 ∧
       (cheshire_clic_delegate (traced (withDelegation idleEnv)) 64 (all_local, [])).2.2 = [] ∧
       (cheshire_clic_delegate (traced (withDelegation idleEnv)) 64 (all_local, [])).2.1 =
         all_local) := by
  refine ⟨by decide, rfl, rfl, rfl, ?_, ?_⟩
  · simp [query_layer, cheshire_clic_delegate, traced, logVoid, withDelegation,
      clic_delegate_model]
  · intro h
    exact h.1 rfl

/-- C1 (amended): for every interrupt number `irq`, in range or not,
`cheshire_clic_delegate` returns 0 and issues exactly one driver call,
`clic_delegate(&clic, irq)`, with `irq` unchanged and the descriptor whose
source count is 64; the new state is the one the driver produces. -/
theorem clic_delegate_forwards {σ : Type} (E : Env σ) (irq : Nat) (s : σ) (t : List Call) :
    cheshire_clic_delegate E irq s = (0, E.clic_delegate clic irq s) ∧
    cheshire_clic_delegate (traced E) irq (s, t) =
      (0, (E.clic_delegate clic irq s, t ++ [Call.clic_delegate clic irq])) ∧
    clic.num_src = 64 :=
  ⟨rfl, rfl, rfl⟩

theorem u32_to_int_inj (x y : Nat) (hx : x < 2 ^ 32) (hy : y < 2 ^ 32)
    (h : u32_to_int x = u32_to_int y) : x = y := by
  unfold u32_to_int at h
  have hx1 : x % 2 ^ 32 = x := Nat.mod_eq_of_lt hx
  have hy1 : y % 2 ^ 32 = y := Nat.mod_eq_of_lt hy
  rw [hx1, hy1] at h
  split_ifs at h <;> omega

theorem m_cntx_id_small (h : Nat) (hb : h < 2 ^ 30) : m_cntx_id h = 2 * (h : Int) := by
  unfold m_cntx_id u32_to_int
  have h1 : 2 * h % 2 ^ 32 = 2 * h := Nat.mod_eq_of_lt (by omega)
  rw [h1, h1]
  split_ifs <;> omega

theorem s_cntx_id_small (h : Nat) (hb : h < 2 ^ 30) : s_cntx_id h = 2 * (h : Int) + 1 := by
  unfold s_cntx_id u32_to_int
  have h1 : 2 * h % 2 ^ 32 = 2 * h := Nat.mod_eq_of_lt (by omega)
  have h2 : (2 * h + 1) % 2 ^ 32 = 2 * h + 1 := Nat.mod_eq_of_lt (by omega)
  rw [h1, h2, h2]
  split_ifs <;> omega

/-- C2: for hart identifiers below a hart count of at most `2 ^ 31` (the
platform's hart count, 1, is such a count), the two context indices passed for a
hart are distinct, and for two different harts all four indices are pairwise
different: no two harts share a context.  The indices are functions of the hart
identifier alone. -/
theorem hart_context_mapping_injective (hart_count h1 h2 : Nat) (hc : hart_count ≤ 2 ^ 31)
    (hb1 : h1 < hart_count) (hb2 : h2 < hart_count) :
    platform.hart_count ≤ 2 ^ 31 ∧
    m_cntx_id h1 ≠ s_cntx_id h1 ∧
    (h1 ≠ h2 →
      m_cntx_id h1 ≠ m_cntx_id h2 ∧ m_cntx_id h1 ≠ s_cntx_id h2 ∧
      s_cntx_id h1 ≠ m_cntx_id h2 ∧ s_cntx_id h1 ≠ s_cntx_id h2) := by
  have e1 : 2 * h1 % 2 ^ 32 = 2 * h1 := Nat.mod_eq_of_lt (by omega)
  have e2 : 2 * h2 % 2 ^ 32 = 2 * h2 := Nat.mod_eq_of_lt (by omega)
  have f1 : (2 * h1 + 1) % 2 ^ 32 = 2 * h1 + 1 := Nat.mod_eq_of_lt (by omega)
  have f2 : (2 * h2 + 1) % 2 ^ 32 = 2 * h2 + 1 := Nat.mod_eq_of_lt (by omega)
  have l1 : 2 * h1 < 2 ^ 32 := by omega
  have l2 : 2 * h2 < 2 ^ 32 := by omega
  have k1 : 2 * h1 + 1 < 2 ^ 32 := by omega
  have k2 : 2 * h2 + 1 < 2 ^ 32 := by omega
  unfold m_cntx_id s_cntx_id
  rw [e1, e2, f1, f2]
  refine ⟨by decide, ?_, ?_⟩
  · intro h
    have := u32_to_int_inj _ _ l1 k1 h
    omega
  · intro hne
    refine ⟨?_, ?_, ?_, ?_⟩
    · intro h
      have := u32_to_int_inj _ _ l1 l2 h
      omega
    · intro h
      have := u32_to_int_inj _ _ l1 k2 h
      omega
    · intro h
      have := u32_to_int_inj _ _ k1 l2 h
      omega
    · intro h
      have := u32_to_int_inj _ _ k1 k2 h
      omega

/-- C2, at harts 0 and 1 of a two-hart topology: the contexts are 0, 1 and 2, 3. -/
theorem hart_context_mapping_injective_witness :
    platform.hart_count ≤ 2 ^ 31 ∧
    m_cntx_id 0 ≠ s_cntx_id 0 ∧
    (m_cntx_id 0 ≠ m_cntx_id 1 ∧ m_cntx_id 0 ≠ s_cntx_id 1 ∧
      s_cntx_id 0 ≠ m_cntx_id 1 ∧ s_cntx_id 0 ≠ s_cntx_id 1) :=
  ⟨(hart_context_mapping_injective 2 0 1 (by norm_num) (by norm_num) (by norm_num)).1,
   (hart_context_mapping_injective 2 0 1 (by norm_num) (by norm_num) (by norm_num)).2.1,
   (hart_context_mapping_injective 2 0 1 (by norm_num) (by norm_num) (by norm_num)).2.2
     (by decide)⟩

/-- C3: `cheshire_irqchip_init` returns the first error of its sub-steps and
stops there.  With `cold`, `c`, `w` the results of the PLIC cold init, of the
CLIC init after it and of the PLIC warm init after that (and `c0`, `w0` the
results of the CLIC init and of the PLIC warm init when there is no cold init):
in the cold phase, a failing cold init is the result and the only driver call;
otherwise a failing CLIC init is the result and the last driver call; otherwise
the result is the one of the PLIC warm init.  The result is 0 exactly when every
executed sub-step returned 0, and the instrumented run returns the same code
and state as the plain one. -/
theorem irqchip_init_first_error {σ : Type} (E : Env σ) (hartid : Nat) (s : σ)
    (t : List Call) (cold c w c0 w0 : Int × σ)
    (hcold : cold = E.plic_cold_irqchip_init plic s)
    (hc : c = E.clic_init clic cold.2)
    (hw : w = E.plic_warm_irqchip_init plic (m_cntx_id hartid) (s_cntx_id hartid) c.2)
    (hc0 : c0 = E.clic_init clic s)
    (hw0 : w0 = E.plic_warm_irqchip_init plic (m_cntx_id hartid) (s_cntx_id hartid) c0.2) :
    (cold.1 ≠ 0 →
      cheshire_irqchip_init (traced E) hartid true (s, t) =
        (cold.1, (cold.2, t ++ [Call.plic_cold_irqchip_init plic]))) ∧
    (cold.1 = 0 → c.1 ≠ 0 →
      cheshire_irqchip_init (traced E) hartid true (s, t) =
        (c.1, (c.2, t ++ [Call.plic_cold_irqchip_init plic, Call.clic_init clic]))) ∧
    (cold.1 = 0 → c.1 = 0 →
      cheshire_irqchip_init (traced E) hartid true (s, t) =
        (w.1, (w.2, t ++ [Call.plic_cold_irqchip_init plic, Call.clic_init clic,
          Call.plic_warm_irqchip_init plic (m_cntx_id hartid) (s_cntx_id hartid)]))) ∧
    (c0.1 ≠ 0 →
      cheshire_irqchip_init (traced E) hartid false (s, t) =
        (c0.1, (c0.2, t ++ [Call.clic_init clic]))) ∧
    (c0.1 = 0 →
      cheshire_irqchip_init (traced E) hartid false (s, t) =
        (w0.1, (w0.2, t ++ [Call.clic_init clic,
          Call.plic_warm_irqchip_init plic (m_cntx_id hartid) (s_cntx_id hartid)]))) ∧
    ((cheshire_irqchip_init E hartid true s).1 = 0 ↔ cold.1 = 0 ∧ c.1 = 0 ∧ w.1 = 0) ∧
    ((cheshire_irqchip_init E hartid false s).1 = 0 ↔ c0.1 = 0 ∧ w0.1 = 0) ∧
    (∀ cold_boot : Bool,
      (cheshire_irqchip_init (traced E) hartid cold_boot (s, t)).1 =
        (cheshire_irqchip_init E hartid cold_boot s).1 ∧
      (cheshire_irqchip_init (traced E) hartid cold_boot (s, t)).2.1 =
        (cheshire_irqchip_init E hartid cold_boot s).2) := by
  subst hcold hc hw hc0 hw0
  refine ⟨?_, ?_, ?_, ?_, ?_, ?_, ?_, ?_⟩
  · intro h
    rw [traced_irqchip_init, if_pos h]
  · intro h1 h2
    rw [traced_irqchip_init, if_neg (by simpa using h1), traced_irqchip_init_hart, if_pos h2]
    simp
  · intro h1 h2
    rw [traced_irqchip_init, if_neg (by simpa using h1), traced_irqchip_init_hart,
      if_neg (by simpa using h2)]
    simp
  · intro h
    have e : cheshire_irqchip_init (traced E) hartid false (s, t) =
        cheshire_irqchip_init_hart (traced E) hartid (s, t) := by
      simp [cheshire_irqchip_init]
    rw [e, traced_irqchip_init_hart, if_pos h]
  · intro h
    have e : cheshire_irqchip_init (traced E) hartid false (s, t) =
        cheshire_irqchip_init_hart (traced E) hartid (s, t) := by
      simp [cheshire_irqchip_init]
    rw [e, traced_irqchip_init_hart, if_neg (by simpa using h)]
  · simp only [cheshire_irqchip_init, cheshire_irqchip_init_hart,
      plic_cheshire_warm_irqchip_init]
    by_cases h1 : (E.plic_cold_irqchip_init plic s).1 = 0
    · by_cases h2 : (E.clic_init clic (E.plic_cold_irqchip_init plic s).2).1 = 0
      · simp [h1, h2]
      · simp [h1, h2]
    · simp [h1]
  · simp only [cheshire_irqchip_init, cheshire_irqchip_init_hart,
      plic_cheshire_warm_irqchip_init]
    by_cases h2 : (E.clic_init clic s).1 = 0
    · simp [h2]
    · simp [h2]
  · intro cold_boot
    cases cold_boot
    · have e : cheshire_irqchip_init (traced E) hartid false (s, t) =
          cheshire_irqchip_init_hart (traced E) hartid (s, t) := by
        simp [cheshire_irqchip_init]
      rw [e, traced_irqchip_init_hart]
      simp only [cheshire_irqchip_init, cheshire_irqchip_init_hart,
        plic_cheshire_warm_irqchip_init]
      by_cases h2 : (E.clic_init clic s).1 = 0
      · simp [h2]
      · simp [h2]
    · rw [traced_irqchip_init, traced_irqchip_init_hart]
      simp only [cheshire_irqchip_init, cheshire_irqchip_init_hart,
        plic_cheshire_warm_irqchip_init]
      by_cases h1 : (E.plic_cold_irqchip_init plic s).1 = 0
      · by_cases h2 : (E.clic_init clic (E.plic_cold_irqchip_init plic s).2).1 = 0
        · simp [h1, h2]
        · simp [h1, h2]
      · simp [h1]

/-- C3, on concrete drivers: a cold init failing with -3 is returned after one
call; a CLIC init failing with -2 is returned after two calls; a PLIC warm init
failing with -5 in the warm phase is returned after the two per-hart calls. -/
theorem irqchip_init_first_error_witness :
    cheshire_irqchip_init (traced (stubEnv { allOk with plic_cold := -3 })) 0 true ((), []) =
      (-3, ((), [Call.plic_cold_irqchip_init plic])) ∧
    cheshire_irqchip_init (traced (stubEnv { allOk with clic_init := -2 })) 0 true ((), []) =
      (-2, ((), [Call.plic_cold_irqchip_init plic, Call.clic_init clic])) ∧
    cheshire_irqchip_init (traced (stubEnv { allOk with plic_warm := -5 })) 0 false ((), []) =
      (-5, ((), [Call.clic_init clic, Call.plic_warm_irqchip_init plic 0 1])) :=
  ⟨(irqchip_init_first_error (stubEnv { allOk with plic_cold := -3 }) 0 () [] _ _ _ _ _
      rfl rfl rfl rfl rfl).1 (by decide),
   (irqchip_init_first_error (stubEnv { allOk with clic_init := -2 }) 0 () [] _ _ _ _ _
      rfl rfl rfl rfl rfl).2.1 rfl (by decide),
   (irqchip_init_first_error (stubEnv { allOk with plic_warm := -5 }) 0 () [] _ _ _ _ _
      rfl rfl rfl rfl rfl).2.2.2.2.1 rfl⟩

/-- C4: sequencing of `cheshire_irqchip_init` when every driver call of the run
succeeds, for every hart.  With `cold`, `c`, `w` the results of the PLIC cold
init, of the CLIC init after it and of the PLIC warm init after that (and `c0`,
`w0` the results of the CLIC init and of the PLIC warm init when there is no
cold init): if the three calls of the cold-phase run return 0, the run returns 0
and makes exactly the calls PLIC cold init, CLIC init, PLIC warm init with the
hart's two contexts, in this order; if the two calls of the warm-phase run
return 0, the run returns 0 and makes exactly the last two.  Whatever the
drivers return, the PLIC cold init is called if and only if `cold_boot` is true,
and the CLIC init is called in both phases unless the cold init failed.  For
hart identifiers below `2 ^ 30` the two contexts are the integers `2 * hartid`
and `2 * hartid + 1`. -/
theorem irqchip_init_sequencing {σ : Type} (E : Env σ) (hartid : Nat) (s : σ)
    (t : List Call) (cold c w c0 w0 : Int × σ)
    (hcold : cold = E.plic_cold_irqchip_init plic s)
    (hc : c = E.clic_init clic cold.2)
    (hw : w = E.plic_warm_irqchip_init plic (m_cntx_id hartid) (s_cntx_id hartid) c.2)
    (hc0 : c0 = E.clic_init clic s)
    (hw0 : w0 = E.plic_warm_irqchip_init plic (m_cntx_id hartid) (s_cntx_id hartid) c0.2) :
    (cold.1 = 0 → c.1 = 0 → w.1 = 0 →
      (cheshire_irqchip_init (traced E) hartid true (s, t)).1 = 0 ∧
      (cheshire_irqchip_init (traced E) hartid true (s, t)).2.2 =
        t ++ [Call.plic_cold_irqchip_init plic, Call.clic_init clic,
          Call.plic_warm_irqchip_init plic (m_cntx_id hartid) (s_cntx_id hartid)]) ∧
    (c0.1 = 0 → w0.1 = 0 →
      (cheshire_irqchip_init (traced E) hartid false (s, t)).1 = 0 ∧
      (cheshire_irqchip_init (traced E) hartid false (s, t)).2.2 =
        t ++ [Call.clic_init clic,
          Call.plic_warm_irqchip_init plic (m_cntx_id hartid) (s_cntx_id hartid)]) ∧
    (∀ cold_boot : Bool,
      Call.plic_cold_irqchip_init plic ∈
        (cheshire_irqchip_init (traced E) hartid cold_boot (s, [])).2.2 ↔ cold_boot = true) ∧
    (∀ cold_boot : Bool,
      Call.clic_init clic ∈
        (cheshire_irqchip_init (traced E) hartid cold_boot (s, [])).2.2 ↔
          (cold_boot = false ∨ cold.1 = 0)) ∧
    (hartid < 2 ^ 30 →
      m_cntx_id hartid = 2 * (hartid : Int) ∧ s_cntx_id hartid = 2 * (hartid : Int) + 1) := by
  subst hcold hc hw hc0 hw0
  have ef : ∀ u : List Call, cheshire_irqchip_init (traced E) hartid false (s, u) =
      cheshire_irqchip_init_hart (traced E) hartid (s, u) := by
    intro u
    simp [cheshire_irqchip_init]
  refine ⟨?_, ?_, ?_, ?_, ?_⟩
  · intro h1 h2 h3
    rw [traced_irqchip_init, traced_irqchip_init_hart]
    simp [h1, h2, h3]
  · intro h2 h3
    rw [ef, traced_irqchip_init_hart]
    simp [h2, h3]
  · intro cold_boot
    cases cold_boot
    · rw [ef, traced_irqchip_init_hart]
      by_cases h2 : (E.clic_init clic s).1 = 0
      · simp [h2]
      · simp [h2]
    · rw [traced_irqchip_init, traced_irqchip_init_hart]
      by_cases h1 : (E.plic_cold_irqchip_init plic s).1 = 0
      · by_cases h2 : (E.clic_init clic (E.plic_cold_irqchip_init plic s).2).1 = 0
        · simp [h1, h2]
        · simp [h1, h2]
      · simp [h1]
  · intro cold_boot
    cases cold_boot
    · rw [ef, traced_irqchip_init_hart]
      by_cases h2 : (E.clic_init clic s).1 = 0
      · simp [h2]
      · simp [h2]
    · rw [traced_irqchip_init, traced_irqchip_init_hart]
      by_cases h1 : (E.plic_cold_irqchip_init plic s).1 = 0
      · by_cases h2 : (E.clic_init clic (E.plic_cold_irqchip_init plic s).2).1 = 0
        · simp [h1, h2]
        · simp [h1, h2]
      · simp [h1]
  · intro hb
    exact ⟨m_cntx_id_small hartid hb, s_cntx_id_small hartid hb⟩

/-- C4, for hart 0: on drivers that all return 0 the cold-phase and warm-phase
traces, with contexts 0 and 1; and on drivers whose PLIC cold init would fail
with -3, a warm-phase run, which never calls it, still succeeds with the two
per-hart calls. -/
theorem irqchip_init_sequencing_witness :
    ((cheshire_irqchip_init (traced (stubEnv allOk)) 0 true ((), [])).1 = 0 ∧
      (cheshire_irqchip_init (traced (stubEnv allOk)) 0 true ((), [])).2.2 =
        [Call.plic_cold_irqchip_init plic, Call.clic_init clic,
          Call.plic_warm_irqchip_init plic 0 1]) ∧
    ((cheshire_irqchip_init (traced (stubEnv allOk)) 0 false ((), [])).1 = 0 ∧
      (cheshire_irqchip_init (traced (stubEnv allOk)) 0 false ((), [])).2.2 =
        [Call.clic_init clic, Call.plic_warm_irqchip_init plic 0 1]) ∧
    ((cheshire_irqchip_init (traced (stubEnv { allOk with plic_cold := -3 })) 0 false
        ((), [])).1 = 0 ∧
      (cheshire_irqchip_init (traced (stubEnv { allOk with plic_cold := -3 })) 0 false
        ((), [])).2.2 = [Call.clic_init clic, Call.plic_warm_irqchip_init plic 0 1]) ∧
    (m_cntx_id 0 = 0 ∧ s_cntx_id 0 = 1) :=
  ⟨(irqchip_init_sequencing (stubEnv allOk) 0 () [] _ _ _ _ _ rfl rfl rfl rfl rfl).1
      rfl rfl rfl,
   (irqchip_init_sequencing (stubEnv allOk) 0 () [] _ _ _ _ _ rfl rfl rfl rfl rfl).2.1
      rfl rfl,
   (irqchip_init_sequencing (stubEnv { allOk with plic_cold := -3 }) 0 () [] _ _ _ _ _
      rfl rfl rfl rfl rfl).2.1 rfl rfl,
   (irqchip_init_sequencing (stubEnv allOk) 0 () [] _ _ _ _ _ rfl rfl rfl rfl rfl).2.2.2.2
      (by norm_num)⟩

/-- C6: `cheshire_ipi_init` unmasks the machine software-interrupt line and
raises its priority to 255 only in the cold phase.  With `cold` the result of
the MSWI cold init, `w` the result of the MSWI warm init after the two CLIC
writes and `w0` the result of the MSWI warm init on the entry state: a failing
cold init is the result and the only driver call; a succeeding one is followed
by `clic_set_enable(IRQ_M_SOFT, 1)`, `clic_set_priority(IRQ_M_SOFT, 255)` and
the warm init, whose result is returned; in the warm phase the warm init is the
only driver call and its result is returned.  Each CLIC write is in the trace
if and only if `cold_boot` is true and the cold init returned 0. -/
theorem ipi_init_unmasks_in_cold_phase {σ : Type} (E : Env σ) (s : σ) (t : List Call)
    (cold w w0 : Int × σ)
    (hcold : cold = E.aclint_mswi_cold_init (mswi E.ACLINT_MSWI_SIZE) s)
    (hw : w = E.aclint_mswi_warm_init
      (E.clic_set_priority E.IRQ_M_SOFT 255 (E.clic_set_enable E.IRQ_M_SOFT 1 cold.2)))
    (hw0 : w0 = E.aclint_mswi_warm_init s) :
    (cold.1 ≠ 0 →
      cheshire_ipi_init (traced E) true (s, t) =
        (cold.1, (cold.2, t ++ [Call.aclint_mswi_cold_init (mswi E.ACLINT_MSWI_SIZE)]))) ∧
    (cold.1 = 0 →
      cheshire_ipi_init (traced E) true (s, t) =
        (w.1, (w.2, t ++ [Call.aclint_mswi_cold_init (mswi E.ACLINT_MSWI_SIZE),
          Call.clic_set_enable E.IRQ_M_SOFT 1, Call.clic_set_priority E.IRQ_M_SOFT 255,
          Call.aclint_mswi_warm_init]))) ∧
    cheshire_ipi_init (traced E) false (s, t) =
      (w0.1, (w0.2, t ++ [Call.aclint_mswi_warm_init])) ∧
    (∀ cold_boot : Bool,
      Call.clic_set_enable E.IRQ_M_SOFT 1 ∈ (cheshire_ipi_init (traced E) cold_boot (s, [])).2.2 ↔
        (cold_boot = true ∧ cold.1 = 0)) ∧
    (∀ cold_boot : Bool,
      Call.clic_set_priority E.IRQ_M_SOFT 255 ∈
          (cheshire_ipi_init (traced E) cold_boot (s, [])).2.2 ↔
        (cold_boot = true ∧ cold.1 = 0)) ∧
    (∀ cold_boot : Bool,
      (cheshire_ipi_init (traced E) cold_boot (s, t)).1 = (cheshire_ipi_init E cold_boot s).1 ∧
      (cheshire_ipi_init (traced E) cold_boot (s, t)).2.1 =
        (cheshire_ipi_init E cold_boot s).2) := by
  subst hcold hw hw0
  refine ⟨?_, ?_, ?_, ?_, ?_, ?_⟩
  · intro h
    simp [cheshire_ipi_init, traced, logRet, h]
  · intro h
    simp [cheshire_ipi_init, traced, logRet, logVoid, h]
  · simp [cheshire_ipi_init, traced, logRet]
  · intro cold_boot
    cases cold_boot
    · simp [cheshire_ipi_init, traced, logRet]
    · by_cases h : (E.aclint_mswi_cold_init (mswi E.ACLINT_MSWI_SIZE) s).1 = 0
      · simp [cheshire_ipi_init, traced, logRet, logVoid, h]
      · simp [cheshire_ipi_init, traced, logRet, h]
  · intro cold_boot
    cases cold_boot
    · simp [cheshire_ipi_init, traced, logRet]
    · by_cases h : (E.aclint_mswi_cold_init (mswi E.ACLINT_MSWI_SIZE) s).1 = 0
      · simp [cheshire_ipi_init, traced, logRet, logVoid, h]
      · simp [cheshire_ipi_init, traced, logRet, h]
  · intro cold_boot
    cases cold_boot
    · simp [cheshire_ipi_init, traced, logRet]
    · by_cases h : (E.aclint_mswi_cold_init (mswi E.ACLINT_MSWI_SIZE) s).1 = 0
      · simp [cheshire_ipi_init, traced, logRet, logVoid, h]
      · simp [cheshire_ipi_init, traced, logRet, h]

/-- C6, on concrete drivers: a cold init failing with -4 is returned after one
call; with all drivers returning 0 except the warm init (7), the cold phase makes
the four calls in order and returns 7. -/
theorem ipi_init_unmasks_in_cold_phase_witness :
    cheshire_ipi_init (traced (stubEnv { allOk with mswi_cold := -4 })) true ((), []) =
      (-4, ((), [Call.aclint_mswi_cold_init (mswi 0x4000)])) ∧
    cheshire_ipi_init (traced (stubEnv { allOk with mswi_warm := 7 })) true ((), []) =
      (7, ((), [Call.aclint_mswi_cold_init (mswi 0x4000), Call.clic_set_enable 3 1,
        Call.clic_set_priority 3 255, Call.aclint_mswi_warm_init])) :=
  ⟨(ipi_init_unmasks_in_cold_phase (stubEnv { allOk with mswi_cold := -4 }) () [] _ _ _
      rfl rfl rfl).1 (by decide),
   (ipi_init_unmasks_in_cold_phase (stubEnv { allOk with mswi_warm := 7 }) () [] _ _ _
      rfl rfl rfl).2.1 rfl⟩

/-- C7: `cheshire_timer_init` performs the MTIMER cold init only in the cold
phase and the warm init in both.  With `cold` the result of
`aclint_mtimer_cold_init(&mtimer, NULL)`, `w` the result of the warm init after
it and `w0` the result of the warm init on the entry state: a failing cold init
is the result and the only driver call; a succeeding one is followed by one warm
init whose result is returned; in the warm phase the warm init is the only
driver call and its result is returned.  The descriptor passed to the cold init
has counter frequency 1000000. -/
theorem timer_init_cold_then_warm {σ : Type} (E : Env σ) (s : σ) (t : List Call)
    (cold w w0 : Int × σ)
    (hcold : cold = E.aclint_mtimer_cold_init mtimer none s)
    (hw : w = E.aclint_mtimer_warm_init cold.2)
    (hw0 : w0 = E.aclint_mtimer_warm_init s) :
    (cold.1 ≠ 0 →
      cheshire_timer_init (traced E) true (s, t) =
        (cold.1, (cold.2, t ++ [Call.aclint_mtimer_cold_init mtimer none]))) ∧
    (cold.1 = 0 →
      cheshire_timer_init (traced E) true (s, t) =
        (w.1, (w.2, t ++ [Call.aclint_mtimer_cold_init mtimer none,
          Call.aclint_mtimer_warm_init]))) ∧
    cheshire_timer_init (traced E) false (s, t) =
      (w0.1, (w0.2, t ++ [Call.aclint_mtimer_warm_init])) ∧
    mtimer.mtime_freq = 1000000 ∧
    (∀ cold_boot : Bool,
      (cheshire_timer_init (traced E) cold_boot (s, t)).1 =
        (cheshire_timer_init E cold_boot s).1 ∧
      (cheshire_timer_init (traced E) cold_boot (s, t)).2.1 =
        (cheshire_timer_init E cold_boot s).2) := by
  subst hcold hw hw0
  refine ⟨?_, ?_, ?_, rfl, ?_⟩
  · intro h
    simp [cheshire_timer_init, traced, logRet, h]
  · intro h
    simp [cheshire_timer_init, traced, logRet, h]
  · simp [cheshire_timer_init, traced, logRet]
  · intro cold_boot
    cases cold_boot
    · simp [cheshire_timer_init, traced, logRet]
    · by_cases h : (E.aclint_mtimer_cold_init mtimer none s).1 = 0
      · simp [cheshire_timer_init, traced, logRet, h]
      · simp [cheshire_timer_init, traced, logRet, h]

/-- C7, on concrete drivers: a cold init failing with -6 is returned after one
call; with the cold init returning 0 and the warm init 9, the cold phase makes
the two calls and returns 9. -/
theorem timer_init_cold_then_warm_witness :
    cheshire_timer_init (traced (stubEnv { allOk with mtimer_cold := -6 })) true ((), []) =
      (-6, ((), [Call.aclint_mtimer_cold_init mtimer none])) ∧
    cheshire_timer_init (traced (stubEnv { allOk with mtimer_warm := 9 })) true ((), []) =
      (9, ((), [Call.aclint_mtimer_cold_init mtimer none, Call.aclint_mtimer_warm_init])) :=
  ⟨(timer_init_cold_then_warm (stubEnv { allOk with mtimer_cold := -6 }) () [] _ _ _
      rfl rfl rfl).1 (by decide),
   (timer_init_cold_then_warm (stubEnv { allOk with mtimer_warm := 9 }) () [] _ _ _
      rfl rfl rfl).2.1 rfl⟩

theorem apply_writes_cons (a v : Nat) (ws : List (Nat × Nat)) (m : Regs) :
    apply_writes ((a, v) :: ws) m = apply_writes ws (reg_write a v m) := rfl

theorem apply_writes_append (xs ys : List (Nat × Nat)) (m : Regs) :
    apply_writes (xs ++ ys) m = apply_writes ys (apply_writes xs m) := by
  simp [apply_writes, List.foldl_append]

theorem apply_writes_untouched (ws : List (Nat × Nat)) (m : Regs) (x : Nat)
    (hx : x ∉ ws.map Prod.fst) : apply_writes ws m x = m x := by
  induction ws generalizing m with
  | nil => rfl
  | cons w ws ih =>
    obtain ⟨a, v⟩ := w
    simp only [List.map_cons, List.mem_cons, not_or] at hx
    rw [apply_writes_cons, ih _ hx.2]
    simp [reg_write, hx.1]

theorem apply_writes_congr (ws : List (Nat × Nat)) (m n : Regs)
    (h : ∀ x, x ∉ ws.map Prod.fst → m x = n x) : apply_writes ws m = apply_writes ws n := by
  induction ws generalizing m n with
  | nil =>
    funext x
    exact h x (by simp)
  | cons w ws ih =>
    obtain ⟨a, v⟩ := w
    rw [apply_writes_cons, apply_writes_cons]
    apply ih
    intro x hx
    by_cases hxa : x = a
    · simp [reg_write, hxa]
    · simp only [reg_write, hxa, if_false]
      apply h
      simp [hxa, hx]

theorem apply_writes_idem (ws : List (Nat × Nat)) (m : Regs) :
    apply_writes ws (apply_writes ws m) = apply_writes ws m :=
  apply_writes_congr ws _ _ (fun x hx => apply_writes_untouched ws m x hx)

theorem delegate_all_cons (E : Env DelegationState) (i : Nat) (more : List Nat)
    (d : DelegationState) :
    delegate_all E (i :: more) d = delegate_all E more (cheshire_clic_delegate E i d).2 := rfl

theorem delegate_all_routed (E : Env DelegationState) (more : List Nat) (d : DelegationState)
    (irq : Nat) (h : d irq = TerminationLayer.distributor_routed) :
    delegate_all (withDelegation E) more d irq = TerminationLayer.distributor_routed := by
  induction more generalizing d with
  | nil => exact h
  | cons i more ih =>
    rw [delegate_all_cons]
    apply ih
    simp only [cheshire_clic_delegate, withDelegation, clic_delegate_model]
    split
    · rfl
    · exact h

theorem delegate_all_untouched (E : Env DelegationState) (more : List Nat)
    (d : DelegationState) (line : Nat) (h : line ∉ more) :
    delegate_all (withDelegation E) more d line = d line := by
  induction more generalizing d with
  | nil => rfl
  | cons i more ih =>
    simp only [List.mem_cons, not_or] at h
    rw [delegate_all_cons, ih _ h.2]
    simp [cheshire_clic_delegate, withDelegation, clic_delegate_model, h.1]

/-- C5: over the register-write model of the drivers, running the warm
`cheshire_irqchip_init` a second time for the same hart returns the same code
and leaves the registers as the first run left them, and the second run issues
the same driver calls with the same arguments as the first.  When the CLIC init
and the PLIC warm init succeed for these arguments, both runs return 0 and the
calls of each run are `clic_init(&clic)`, then `plic_warm_irqchip_init` with the
hart's two contexts. -/
theorem warm_irqchip_init_idempotent (W : WriteTable) (hartid : Nat) (s : Regs) :
    cheshire_irqchip_init (regEnv W) hartid false
        (cheshire_irqchip_init (regEnv W) hartid false s).2 =
      cheshire_irqchip_init (regEnv W) hartid false s ∧
    (cheshire_irqchip_init (traced (regEnv W)) hartid false
        ((cheshire_irqchip_init (regEnv W) hartid false s).2, [])).2.2 =
      (cheshire_irqchip_init (traced (regEnv W)) hartid false (s, [])).2.2 ∧
    (W.clic_init_ret clic = 0 →
      W.plic_warm_ret plic (m_cntx_id hartid) (s_cntx_id hartid) = 0 →
      (cheshire_irqchip_init (regEnv W) hartid false s).1 = 0 ∧
      (cheshire_irqchip_init (regEnv W) hartid false
        (cheshire_irqchip_init (regEnv W) hartid false s).2).1 = 0 ∧
      (cheshire_irqchip_init (traced (regEnv W)) hartid false
        ((cheshire_irqchip_init (regEnv W) hartid false s).2, [])).2.2 =
        [Call.clic_init clic,
          Call.plic_warm_irqchip_init plic (m_cntx_id hartid) (s_cntx_id hartid)]) := by
  have ef : ∀ (u : Regs × List Call),
      cheshire_irqchip_init (traced (regEnv W)) hartid false u =
        cheshire_irqchip_init_hart (traced (regEnv W)) hartid u := by
    intro u
    simp [cheshire_irqchip_init]
  have idem2 : ∀ (xs ys : List (Nat × Nat)) (m : Regs),
      apply_writes ys (apply_writes xs (apply_writes ys (apply_writes xs m))) =
        apply_writes ys (apply_writes xs m) := by
    intro xs ys m
    have := apply_writes_idem (xs ++ ys) m
    simpa [apply_writes_append] using this
  refine ⟨?_, ?_, ?_⟩
  · simp only [cheshire_irqchip_init, cheshire_irqchip_init_hart,
      plic_cheshire_warm_irqchip_init, regEnv]
    by_cases hc : W.clic_init_ret clic = 0
    · simp [hc, idem2]
    · simp [hc, apply_writes_idem]
  · rw [ef, ef, traced_irqchip_init_hart, traced_irqchip_init_hart]
    simp only [regEnv]
    by_cases hc : W.clic_init_ret clic = 0
    · simp [hc]
    · simp [hc]
  · intro hc hw
    refine ⟨?_, ?_, ?_⟩
    · simp [cheshire_irqchip_init, cheshire_irqchip_init_hart,
        plic_cheshire_warm_irqchip_init, regEnv, hc, hw]
    · simp [cheshire_irqchip_init, cheshire_irqchip_init_hart,
        plic_cheshire_warm_irqchip_init, regEnv, hc, hw]
    · rw [ef, traced_irqchip_init_hart]
      simp [regEnv, hc]

/-- C5, on the sample write table, hart 0, registers all zero: the second warm
run returns 0 like the first and the registers after two runs are the registers
after one. -/
theorem warm_irqchip_init_idempotent_witness :
    (cheshire_irqchip_init (regEnv sampleTable) 0 false (fun _ => 0)).1 = 0 ∧
    (cheshire_irqchip_init (regEnv sampleTable) 0 false
      (cheshire_irqchip_init (regEnv sampleTable) 0 false (fun _ => 0)).2).1 = 0 ∧
    cheshire_irqchip_init (regEnv sampleTable) 0 false
        (cheshire_irqchip_init (regEnv sampleTable) 0 false (fun _ => 0)).2 =
      cheshire_irqchip_init (regEnv sampleTable) 0 false (fun _ => 0) :=
  ⟨((warm_irqchip_init_idempotent sampleTable 0 (fun _ => 0)).2.2 rfl rfl).1,
   ((warm_irqchip_init_idempotent sampleTable 0 (fun _ => 0)).2.2 rfl rfl).2.1,
   (warm_irqchip_init_idempotent sampleTable 0 (fun _ => 0)).1⟩

/-- C8: over the delegation model, for every in-range interrupt number and
every starting state, `cheshire_clic_delegate` returns 0 and afterwards the
line is reported distributor-routed; after any finite sequence of further
`cheshire_clic_delegate` calls, with any arguments, it is still reported
distributor-routed, and every line other than `irq` that is not an argument of
one of the further calls has the termination layer it had at the start. -/
theorem delegate_round_trip (E : Env DelegationState) (irq : Nat) (_hirq : irq < clic.num_src)
    (d : DelegationState) (more : List Nat) :
    (cheshire_clic_delegate (withDelegation E) irq d).1 = 0 ∧
    query_layer (cheshire_clic_delegate (withDelegation E) irq d).2 irq =
      TerminationLayer.distributor_routed ∧
    query_layer (delegate_all (withDelegation E) more
        (cheshire_clic_delegate (withDelegation E) irq d).2) irq =
      TerminationLayer.distributor_routed ∧
    (∀ line : Nat, line ≠ irq → line ∉ more →
      query_layer (delegate_all (withDelegation E) more
          (cheshire_clic_delegate (withDelegation E) irq d).2) line =
        query_layer d line) := by
  have h0 : (cheshire_clic_delegate (withDelegation E) irq d).2 irq =
      TerminationLayer.distributor_routed := by
    simp [cheshire_clic_delegate, withDelegation, clic_delegate_model]
  refine ⟨rfl, h0, ?_, ?_⟩
  · exact delegate_all_routed E more _ irq h0
  · intro line hne hnot
    unfold query_layer
    rw [delegate_all_untouched E more _ line hnot]
    simp [cheshire_clic_delegate, withDelegation, clic_delegate_model, hne]

/-- C8, at `irq = 5` from the all-local state, followed by delegations of 7, 5
and 64: line 5 is distributor-routed after the first call and after the whole
sequence, and line 6, never an argument, is still compact-controller-local. -/
theorem delegate_round_trip_witness :
    5 < clic.num_src ∧
    query_layer (cheshire_clic_delegate (withDelegation idleEnv) 5 all_local).2 5 =
      TerminationLayer.distributor_routed ∧
    query_layer (delegate_all (withDelegation idleEnv) [7, 5, 64]
        (cheshire_clic_delegate (withDelegation idleEnv) 5 all_local).2) 5 =
      TerminationLayer.distributor_routed ∧
    query_layer (delegate_all (withDelegation idleEnv) [7, 5, 64]
        (cheshire_clic_delegate (withDelegation idleEnv) 5 all_local).2) 6 =
      TerminationLayer.compact_controller_local :=
  ⟨by decide,
   (delegate_round_trip idleEnv 5 (by decide) all_local [7, 5, 64]).2.1,
   (delegate_round_trip idleEnv 5 (by decide) all_local [7, 5, 64]).2.2.1,
   (delegate_round_trip idleEnv 5 (by decide) all_local [7, 5, 64]).2.2.2 6 (by decide)
     (by decide)⟩

end Cheshire
